import Mathlib

/-!
Verification of the fixed-timestep simulation core of `shooty`
(`src/main.rs`).  The code's `f32` scalars are modelled by real numbers
(exact arithmetic); 2D vectors (`glam::Vec2`) by a two-field structure.
Randomness is modelled by an input oracle: every `rand::random_range`
draw site reads a field of the per-update `Input` record, and the
per-splinter draws read an indexed stream.  Fallible float operations
(the division by a squared distance that can be zero, which in IEEE
arithmetic produces a non-finite value) are additionally modelled by an
`Option`-returning variant of the collision resolver.
-/

noncomputable section

open Classical

/-- 2D vector with real components, modelling `glam::Vec2`. -/
@[ext]
structure Vec2 where
  x : ℝ
  y : ℝ

instance : Zero Vec2 := ⟨⟨0, 0⟩⟩

instance : Add Vec2 := ⟨fun a b => ⟨a.x + b.x, a.y + b.y⟩⟩

instance : Sub Vec2 := ⟨fun a b => ⟨a.x - b.x, a.y - b.y⟩⟩

instance : Neg Vec2 := ⟨fun a => ⟨-a.x, -a.y⟩⟩

instance : SMul ℝ Vec2 := ⟨fun c v => ⟨c * v.x, c * v.y⟩⟩

/-- `Vec2::dot`. -/
def Vec2.dot (a b : Vec2) : ℝ := a.x * b.x + a.y * b.y

/-- `Vec2::length_squared`. -/
def Vec2.lengthSq (v : Vec2) : ℝ := v.x * v.x + v.y * v.y

/-- `Vec2::length`. -/
def Vec2.len (v : Vec2) : ℝ := Real.sqrt v.lengthSq

/-- `Vec2::normalize_or_zero`: the unit vector in the same direction, and
the zero vector for the zero input (the only input whose float
normalization would not be finite). -/
def Vec2.normalizeOrZero (v : Vec2) : Vec2 :=
  if v = 0 then 0 else (v.len)⁻¹ • v

/-- `Vec2::rotate`: complex-style multiplication, rotating (and scaling)
`b` by `a`. -/
def Vec2.rotateBy (a b : Vec2) : Vec2 :=
  ⟨a.x * b.x - a.y * b.y, a.y * b.x + a.x * b.y⟩

/-- `f32::rem_euclid` over the reals: `x - m * ⌊x / m⌋`, the
least-non-negative remainder for a positive modulus `m`. -/
def remEuclid (x m : ℝ) : ℝ := x - m * (⌊x / m⌋ : ℤ)

-- Constants of `main.rs`.

/-- `CRATE_LIMIT`. -/
def CRATE_LIMIT : ℕ := 200

/-- `ROT_SPEED`. -/
def ROT_SPEED : ℝ := 5.53

/-- `ACCELERATION`. -/
def ACCELERATION : ℝ := 150

/-- `CRATE_SPAWN_RATE`. -/
def CRATE_SPAWN_RATE : ℝ := 0.65

/-- `BULLET_SPEED`. -/
def BULLET_SPEED : ℝ := 470

/-- `CRATE_BULLET_COLLIDE_DIST` (`16. + 8.`). -/
def CRATE_BULLET_COLLIDE_DIST : ℝ := 16 + 8

/-- `WIDTH`. -/
def WIDTH : ℝ := 1200

/-- `HEIGHT`. -/
def HEIGHT : ℝ := 900

/-- `DELTA` (`1./60.`), the fixed tick duration. -/
def DELTA : ℝ := 1 / 60

/-- `angle_to_vec`: `(cos a, sin a)`. -/
def angleToVec (angle : ℝ) : Vec2 := ⟨Real.cos angle, Real.sin angle⟩

/-- The kinematic body `Obj` of `main.rs`. -/
@[ext]
structure Obj where
  pos : Vec2
  vel : Vec2
  rot : ℝ
  rot_v : ℝ

/-- `Obj::new`. -/
def Obj.new (x y : ℝ) : Obj := ⟨⟨x, y⟩, 0, 0, 0⟩

/-- `Obj::from`. -/
def Obj.from' (pos vel : Vec2) (rot : ℝ) : Obj := ⟨pos, vel, rot, 0⟩

/-- `Obj::with`. -/
def Obj.with' (x y vx vy rot rot_v : ℝ) : Obj := ⟨⟨x, y⟩, ⟨vx, vy⟩, rot, rot_v⟩

/-- `Obj::pushed`: displace position and velocity by the given deltas; the
two trailing arguments are the oracle's values for the two
`rand::random_range` draws (rotation offset, angular-velocity offset). -/
def Obj.pushed (o : Obj) (dx dy dvx dvy rrot rrotv : ℝ) : Obj :=
  ⟨o.pos + ⟨dx, dy⟩, o.vel + ⟨dvx, dvy⟩, o.rot + rrot, o.rot_v + rrotv⟩

/-- `Obj::resolve`: pairwise elastic collision plus positional
de-penetration, mirrored as a pure function on the pair `(a, b)`
(the Rust mutates `a` and `b` in place). -/
def Obj.resolve (a b : Obj) : Obj × Obj :=
  let d := a.pos - b.pos
  let dist_sq := d.lengthSq
  if dist_sq < 32 * 32 then
    let dv := ((a.vel - b.vel).dot d / dist_sq) • d
    let a1 : Obj := { a with vel := a.vel - dv }
    let b1 : Obj := { b with vel := b.vel + dv }
    let dist := Real.sqrt dist_sq
    let dp := (0.5 * (32 / dist - 1)) • d
    ({ a1 with pos := a1.pos + dp }, { b1 with pos := b1.pos - dp })
  else (a, b)

/-- `Obj::resolve` with the float computation's partiality made explicit:
inside the collision branch the code divides by `dist_sq` and by
`sqrt dist_sq`, so when the two centers coincide (`dist_sq = 0`) the IEEE
result is non-finite (`0/0 = NaN`, `32/0 = ∞`) and propagates into both
bodies' velocities and positions; that outcome is `none` here.  On every
other input this is `some` of `Obj.resolve`. -/
def Obj.resolveF (a b : Obj) : Option (Obj × Obj) :=
  let d := a.pos - b.pos
  let dist_sq := d.lengthSq
  if dist_sq < 32 * 32 then
    if dist_sq = 0 then none
    else some (Obj.resolve a b)
  else some (a, b)

/-- The timed projectile `Bullet` of `main.rs` (used for bullets and
splinters alike). -/
@[ext]
structure Bullet where
  obj : Obj
  ttl : ℝ

/-- `Obj::bullet`. -/
def Obj.bullet (o : Obj) (ttl : ℝ) : Bullet := ⟨o, ttl⟩

/-- The `velocity_to_cancel` of the brake branch: the velocity minus its
non-negative-clamped component along the facing direction. -/
def toCancel (vel dir : Vec2) : Vec2 := vel - (max (vel.dot dir) 0) • dir

/-- The brake update of the ship's velocity (`LShift` branch). -/
def brakeVel (vel dir : Vec2) : Vec2 :=
  vel - (ACCELERATION * DELTA) • (toCancel vel dir).normalizeOrZero

/-- The simulation state of `MainState` (the image handles, pure
rendering data, are outside the simulation core). -/
@[ext]
structure State where
  ship : Obj
  bullets : List Bullet
  crates : List Obj
  splinters : List Bullet
  crate_spawn_time : ℝ
  bounce_edge : Bool

/-- One `update` invocation's inputs: the fixed-timestep gate's verdict
(`ctx.time.check_update_time(60)`), the keyboard queries, and the values
the random number generator would return at each draw site.  The three
streams feed the per-splinter draws, indexed by how many splinters were
created earlier in the same tick. -/
structure Input where
  tick : Bool
  spawnX : ℝ
  spawnY : ℝ
  svx : ℝ
  svy : ℝ
  srot : ℝ
  srotv : ℝ
  keySpace : Bool
  keyC : Bool
  keyB : Bool
  keyA : Bool
  keyD : Bool
  keyW : Bool
  keyS : Bool
  keyE : Bool
  keyQ : Bool
  keyShift : Bool
  bulletTtl : ℝ
  sprRot : ℕ → ℝ
  sprRotV : ℕ → ℝ
  sprTtl : ℕ → ℝ

/-- Crate spawning (`main.rs` lines 151-167): runs at the top of every
`update` invocation, before the fixed-timestep gate.  When the countdown
is due, a candidate position is drawn; it is rejected (nothing spawned,
countdown untouched) when within 160 of the ship, otherwise a crate with
random velocity, rotation and angular velocity is pushed and the
countdown is raised by one interval. -/
def spawnPhase (s : State) (i : Input) : State :=
  if s.crate_spawn_time ≤ 0 then
    if (s.ship.pos - ⟨i.spawnX, i.spawnY⟩).lengthSq ≥ 160 * 160 then
      { s with crate_spawn_time := s.crate_spawn_time + CRATE_SPAWN_RATE,
               crates := s.crates ++ [Obj.with' i.spawnX i.spawnY i.svx i.svy i.srot i.srotv] }
    else s
  else s

/-- One tick of ttl decay and expiry for a projectile list: decrement
every ttl by `DELTA`, then remove (indices collected, removed from the
highest down — the same as filtering) every element whose ttl is `≤ 0`. -/
def pruneTick (l : List Bullet) : List Bullet :=
  (l.map fun b => { b with ttl := b.ttl - DELTA }).filter fun b => decide (¬ b.ttl ≤ 0)

/-- The ship-control block of the gated section (`A`/`D` rotation,
`W`/`S`/`E`/`Q` thrust intent, `LShift` brake). -/
def shipControl (i : Input) (ship : Obj) : Obj :=
  let rot1 := if i.keyA then ship.rot - ROT_SPEED * DELTA else ship.rot
  let rot2 := if i.keyD then rot1 + ROT_SPEED * DELTA else rot1
  let w0 : Vec2 := 0
  let w1 := if i.keyW then ⟨w0.x + 1, w0.y⟩ else w0
  let w2 := if i.keyS then ⟨w1.x - 1, w1.y⟩ else w1
  let w3 := if i.keyE then ⟨w2.x, w2.y + 1⟩ else w2
  let w4 := if i.keyQ then ⟨w3.x, w3.y - 1⟩ else w3
  let wish_dir := w4.normalizeOrZero
  let dir := angleToVec rot2
  let vel1 := if i.keyShift then brakeVel ship.vel dir else ship.vel
  let vel2 := if wish_dir ≠ 0 then vel1 + DELTA • (ACCELERATION • dir.rotateBy wish_dir) else vel1
  { ship with rot := rot2, vel := vel2 }

/-- The gated section of `update` (`main.rs` lines 170-235): countdown
decay (frozen at the crate limit), ttl pruning, firing (`Space`), the
manual force-spawn (`C`), the boundary-policy toggle (`B`), and ship
control.  Skipped entirely when the fixed tick has not elapsed. -/
def gatePhase (s : State) (i : Input) : State :=
  if i.tick then
    let st1 := if s.crates.length < CRATE_LIMIT then s.crate_spawn_time - DELTA else s.crate_spawn_time
    let bullets1 := pruneTick s.bullets
    let splinters1 := pruneTick s.splinters
    let bullets2 :=
      if i.keySpace then
        let dir := angleToVec s.ship.rot
        bullets1 ++
          [(Obj.from' (s.ship.pos + (20 : ℝ) • dir) (s.ship.vel + BULLET_SPEED • dir) s.ship.rot).bullet i.bulletTtl]
      else bullets1
    let st2 := if i.keyC then st1 - CRATE_SPAWN_RATE else st1
    let bounce1 := if i.keyB then !s.bounce_edge else s.bounce_edge
    { s with crate_spawn_time := st2, bullets := bullets2, splinters := splinters1,
             bounce_edge := bounce1, ship := shipControl i s.ship }
  else s

/-- Wrap boundary handling (`rem_euclid` on each coordinate). -/
def wrapPos (p : Vec2) : Vec2 := ⟨remEuclid p.x WIDTH, remEuclid p.y HEIGHT⟩

/-- Integration plus boundary handling for one body (`main.rs` lines
241-259): advance position and rotation by one `DELTA`, then either
bounce (velocity sign forced inward within a margin of 16 of an edge;
position untouched) or wrap. -/
def moveObj (bounce : Bool) (o : Obj) : Obj :=
  let pos1 := o.pos + DELTA • o.vel
  let rot1 := o.rot + o.rot_v * DELTA
  if bounce then
    let vx := if pos1.x < 16 then |o.vel.x| else if pos1.x ≥ WIDTH - 16 then -|o.vel.x| else o.vel.x
    let vy := if pos1.y < 16 then |o.vel.y| else if pos1.y ≥ HEIGHT - 16 then -|o.vel.y| else o.vel.y
    { o with pos := pos1, rot := rot1, vel := ⟨vx, vy⟩ }
  else
    { o with pos := wrapPos pos1, rot := rot1 }

/-- Integration/boundary for every body (ship, bullets, crates,
splinters) — runs on every `update` invocation, outside the gate. -/
def movePhase (s : State) : State :=
  { s with ship := moveObj s.bounce_edge s.ship,
           bullets := s.bullets.map fun b => { b with obj := moveObj s.bounce_edge b.obj },
           crates := s.crates.map (moveObj s.bounce_edge),
           splinters := s.splinters.map fun b => { b with obj := moveObj s.bounce_edge b.obj } }

/-- The inner crate scan of the bullet pass: the first crate within the
collide distance of `p`, split as (crates before it, the crate, crates
after it); `none` when no crate is in range.  Mirrors the `for`/`break`
search plus `Vec::remove` (the removed-crate's neighbours re-joined). -/
def findHit (p : Vec2) : List Obj → Option (List Obj × Obj × List Obj)
  | [] => none
  | c :: cs =>
    if (p - c.pos).lengthSq < CRATE_BULLET_COLLIDE_DIST * CRATE_BULLET_COLLIDE_DIST then
      some ([], c, cs)
    else (findHit p cs).map fun r => (c :: r.1, r.2.1, r.2.2)

/-- The four splinters fanned out from a destroyed crate's body `crat`
(already credited with 40% of the bullet's velocity): displaced by 8
along `+x`/`-x`/`+y`/`-y` with a delta-velocity of 50 along the same
axis, each with its own random rotation offset, angular-velocity offset
and ttl, read from the oracle streams at indices `n..n+3`. -/
def fourSplinters (fr fv ft : ℕ → ℝ) (n : ℕ) (crat : Obj) : List Bullet :=
  [(crat.pushed 8 0 50 0 (fr n) (fv n)).bullet (ft n),
   (crat.pushed (-8) 0 (-50) 0 (fr (n + 1)) (fv (n + 1))).bullet (ft (n + 1)),
   (crat.pushed 0 8 0 50 (fr (n + 2)) (fv (n + 2))).bullet (ft (n + 2)),
   (crat.pushed 0 (-8) 0 (-50) (fr (n + 3)) (fv (n + 3))).bullet (ft (n + 3))]

/-- The bullet-versus-crate pass (`main.rs` lines 262-284), scanning the
original bullet list in order.  A bullet's first in-range crate is
removed from the crate collection immediately (so later bullets scan the
reduced collection), the four splinters are pushed, and the bullet is
marked dead; dead bullets are dropped from the returned bullet list only
after the scan (the scan itself never reads the bullet list).  Returns
(crates, splinters, surviving bullets). -/
def bulletPassAux (fr fv ft : ℕ → ℝ) :
    List Bullet → List Obj → List Bullet → ℕ → List Obj × List Bullet × List Bullet
  | [], crates, spl, _ => (crates, spl, [])
  | b :: bs, crates, spl, n =>
    match findHit b.obj.pos crates with
    | some r =>
      let crat : Obj := { r.2.1 with vel := r.2.1.vel + (0.4 : ℝ) • b.obj.vel }
      bulletPassAux fr fv ft bs (r.1 ++ r.2.2) (spl ++ fourSplinters fr fv ft n crat) (n + 4)
    | none =>
      let q := bulletPassAux fr fv ft bs crates spl n
      (q.1, q.2.1, b :: q.2.2)

/-- The bullet-versus-crate pass as a state transformer. -/
def bulletPhase (i : Input) (s : State) : State :=
  let r := bulletPassAux i.sprRot i.sprRotV i.sprTtl s.bullets s.crates s.splinters 0
  { s with crates := r.1, splinters := r.2.1, bullets := r.2.2 }

/-- `a` resolved against every element of the list in order, threading
the mutations (`crates.iter_mut().for_each(|c| self.ship.resolve(c))`,
and the inner loop of `compare_self_mut`). -/
def resolveWithAll : Obj → List Obj → Obj × List Obj
  | a, [] => (a, [])
  | a, b :: rest =>
    let p := Obj.resolve a b
    let q := resolveWithAll p.1 rest
    (q.1, p.2 :: q.2)

/-- Needed before `resolvePairs` for its termination: resolving an
element against a list keeps the list's length. -/
theorem resolveWithAll_snd_length (a : Obj) (l : List Obj) :
    (resolveWithAll a l).2.length = l.length := by
  induction l generalizing a with
  | nil => rfl
  | cons b rest ih => simp [resolveWithAll, ih]

/-- `crates.compare_self_mut(Obj::resolve)`: every unordered pair, each
exactly once, in index order — element 0 against all later ones first,
then recursively the (mutated) rest. -/
def resolvePairs : List Obj → List Obj
  | [] => []
  | a :: rest => (resolveWithAll a rest).1 :: resolvePairs (resolveWithAll a rest).2
termination_by l => l.length
decreasing_by simp [resolveWithAll_snd_length]

/-- The pairwise crate-crate pass followed by the ship-crate pass
(`main.rs` lines 286-287). -/
def collidePhase (s : State) : State :=
  let crates1 := resolvePairs s.crates
  let p := resolveWithAll s.ship crates1
  { s with ship := p.1, crates := p.2 }

/-- One whole `update` invocation, in source order: spawn, the gated
section, integration/boundary, the bullet pass, collision resolution. -/
def step (s : State) (i : Input) : State :=
  collidePhase (bulletPhase i (movePhase (gatePhase (spawnPhase s i) i)))

/-- Modelled from the spec's words for claim C5 (the code's behaviour
differs): under "every bullet's collision check is evaluated against the
same stable snapshot of the obstacle collection", the bullets surviving
the pass are exactly those whose scan of the ORIGINAL crate collection
finds no crate in range. -/
def snapshotSurvivors (crates : List Obj) (bullets : List Bullet) : List Bullet :=
  bullets.filter fun b => (findHit b.obj.pos crates).isNone

/-- The initial simulation state of `MainState::new`: ship at the arena
center, empty collections, a spawn-countdown backlog of twenty intervals
(`-CRATE_SPAWN_RATE * 20.`), wrap boundary policy. -/
def initState : State :=
  { ship := Obj.new (0.5 * WIDTH) (0.5 * HEIGHT), bullets := [], crates := [],
    splinters := [], crate_spawn_time := -CRATE_SPAWN_RATE * 20, bounce_edge := false }

/-- An idle input: the fixed tick has not elapsed, no key is down, every
random draw would return 0. -/
def baseInput : Input :=
  { tick := false, spawnX := 0, spawnY := 0, svx := 0, svy := 0, srot := 0, srotv := 0,
    keySpace := false, keyC := false, keyB := false, keyA := false, keyD := false,
    keyW := false, keyS := false, keyE := false, keyQ := false, keyShift := false,
    bulletTtl := 0, sprRot := fun _ => 0, sprRotV := fun _ => 0, sprTtl := fun _ => 0 }

/-- The `k`-th spawn position of the cap-breaking trace: a 40-spaced grid
in the arena's top band, so that any two grid crates are at least 40
apart and every grid crate is far from the centered ship. -/
def gridN (k : ℕ) : Obj :=
  Obj.with' ((40 * (k % 30) : ℕ) : ℝ) ((40 * (k / 30) : ℕ) : ℝ) 0 0 0 0

/-- The first `k` grid crates. -/
def gridList (k : ℕ) : List Obj := (List.range k).map gridN

/-- The simulation state after `k` updates of the cap-breaking trace:
`k` motionless crates on the grid, the ship untouched at the center, and
a countdown that one `C` press per tick keeps at or below zero forever. -/
def traceState (k : ℕ) : State :=
  { ship := Obj.new 600 450, bullets := [], crates := gridList k, splinters := [],
    crate_spawn_time := -13 - ((min k 199 : ℕ) : ℝ) / 60, bounce_edge := false }

/-- The input of the `k`-th update of the cap-breaking trace: the tick
fires, the force-spawn key `C` is held, and the random candidate position
is the `k`-th grid point. -/
def traceInput (k : ℕ) : Input :=
  { baseInput with
    tick := true, keyC := true,
    spawnX := ((40 * (k % 30) : ℕ) : ℝ), spawnY := ((40 * (k / 30) : ℕ) : ℝ) }

/-- The cap-breaking trace itself: run `k` updates from the initial state
under the trace inputs. -/
def runTrace : ℕ → State
  | 0 => initState
  | k + 1 => step (runTrace k) (traceInput k)

/-- Concrete state for claim C3: a moving ship, nothing else. -/
def idleMoveState : State :=
  { ship := Obj.with' 0 0 60 0 0 0, bullets := [], crates := [], splinters := [],
    crate_spawn_time := 1, bounce_edge := false }

/-- Concrete state for claim C8: empty arena, countdown still positive. -/
def nearSpawnState : State :=
  { ship := Obj.new 600 450, bullets := [], crates := [], splinters := [],
    crate_spawn_time := 0.3, bounce_edge := false }

/-- Input for claim C8: the tick fires and the force-spawn key is held. -/
def forceInput : Input := { baseInput with tick := true, keyC := true }

/-- Input for claim C8: the tick fires and the random spawn candidate
falls exactly on the ship. -/
def nearInput : Input := { baseInput with tick := true, spawnX := 600, spawnY := 450 }

/-! ## Component lemmas for the vector arithmetic -/

@[simp]
theorem Vec2.zero_x : (0 : Vec2).x = 0 := rfl

@[simp]
theorem Vec2.zero_y : (0 : Vec2).y = 0 := rfl

@[simp]
theorem Vec2.add_x (a b : Vec2) : (a + b).x = a.x + b.x := rfl

@[simp]
theorem Vec2.add_y (a b : Vec2) : (a + b).y = a.y + b.y := rfl

@[simp]
theorem Vec2.sub_x (a b : Vec2) : (a - b).x = a.x - b.x := rfl

@[simp]
theorem Vec2.sub_y (a b : Vec2) : (a - b).y = a.y - b.y := rfl

@[simp]
theorem Vec2.smul_x (c : ℝ) (v : Vec2) : (c • v).x = c * v.x := rfl

@[simp]
theorem Vec2.smul_y (c : ℝ) (v : Vec2) : (c • v).y = c * v.y := rfl

@[simp]
theorem Vec2.normalizeOrZero_zero : (0 : Vec2).normalizeOrZero = 0 := by
  simp [Vec2.normalizeOrZero]

theorem Vec2.len_smul (c : ℝ) (v : Vec2) : (c • v).len = |c| * v.len := by
  simp only [Vec2.len, Vec2.lengthSq, Vec2.smul_x, Vec2.smul_y]
  rw [show c * v.x * (c * v.x) + c * v.y * (c * v.y) = c ^ 2 * (v.x * v.x + v.y * v.y) by ring,
    Real.sqrt_mul (sq_nonneg c), Real.sqrt_sq_eq_abs]

/-! ## `rem_euclid` facts -/

theorem remEuclid_nonneg (x m : ℝ) (hm : 0 < m) : 0 ≤ remEuclid x m := by
  have h1 : (⌊x / m⌋ : ℝ) ≤ x / m := Int.floor_le _
  have h2 : m * (⌊x / m⌋ : ℝ) ≤ m * (x / m) := by
    exact mul_le_mul_of_nonneg_left h1 hm.le
  have h3 : m * (x / m) = x := by field_simp
  simp only [remEuclid]
  linarith

theorem remEuclid_lt (x m : ℝ) (hm : 0 < m) : remEuclid x m < m := by
  have h1 : x / m - 1 < (⌊x / m⌋ : ℝ) := Int.sub_one_lt_floor _
  have h2 : m * (x / m - 1) < m * (⌊x / m⌋ : ℝ) := by
    exact mul_lt_mul_of_pos_left h1 hm
  have h3 : m * (x / m) = x := by field_simp
  simp only [remEuclid]
  nlinarith

theorem remEuclid_eq_self (x m : ℝ) (hm : 0 < m) (h0 : 0 ≤ x) (h1 : x < m) :
    remEuclid x m = x := by
  have hf : ⌊x / m⌋ = 0 := by
    rw [Int.floor_eq_zero_iff]
    exact ⟨div_nonneg h0 hm.le, (div_lt_one hm).2 h1⟩
  simp [remEuclid, hf]

theorem wrapPos_eq_self (p : Vec2) (hx0 : 0 ≤ p.x) (hx1 : p.x < WIDTH)
    (hy0 : 0 ≤ p.y) (hy1 : p.y < HEIGHT) : wrapPos p = p := by
  have hw : (0 : ℝ) < WIDTH := by norm_num [WIDTH]
  have hh : (0 : ℝ) < HEIGHT := by norm_num [HEIGHT]
  simp [wrapPos, remEuclid_eq_self _ _ hw hx0 hx1, remEuclid_eq_self _ _ hh hy0 hy1]

/-! ## Collision-resolution facts -/

theorem resolve_far (a b : Obj) (h : ¬ (a.pos - b.pos).lengthSq < 32 * 32) :
    Obj.resolve a b = (a, b) := by
  simp only [Obj.resolve]
  rw [if_neg h]

theorem resolveWithAll_far (a : Obj) (l : List Obj)
    (h : ∀ b ∈ l, 32 * 32 ≤ (a.pos - b.pos).lengthSq) : resolveWithAll a l = (a, l) := by
  induction l with
  | nil => rfl
  | cons b rest ih =>
    have hb : Obj.resolve a b = (a, b) := resolve_far a b (not_lt.2 (h b (by simp)))
    simp only [resolveWithAll, hb]
    rw [ih fun c hc => h c (by simp [hc])]

theorem resolvePairs_far (l : List Obj)
    (h : l.Pairwise fun a b => 32 * 32 ≤ (a.pos - b.pos).lengthSq) : resolvePairs l = l := by
  induction l with
  | nil => simp [resolvePairs]
  | cons a rest ih =>
    rw [List.pairwise_cons] at h
    have h1 : resolveWithAll a rest = (a, rest) := resolveWithAll_far a rest h.1
    rw [resolvePairs, h1]
    simp [ih h.2]


/-- Claim C1: the claim asserts the division by the squared distance in
`Obj::resolve` is guarded; the code has no guard, so at coincident
centers (`dist_sq = 0`, which satisfies the collision test `dist_sq <
32*32`) the float computation divides by zero and propagates a
non-finite value — the partiality-tracking embedding returns `none`. -/
theorem C1_resolve_coincident_nonfinite :
    Obj.resolveF (Obj.with' 100 100 0 0 0 0) (Obj.with' 100 100 0 0 0 0) = none := by
  norm_num [Obj.resolveF, Obj.with', Vec2.lengthSq]

/-- Claim C9: wrap-boundary handling lands both coordinates in
`[0, WIDTH) × [0, HEIGHT)` for every input position, and it is
idempotent. -/
theorem C9_wrap_range_idempotent (p : Vec2) :
    (0 ≤ (wrapPos p).x ∧ (wrapPos p).x < WIDTH ∧ 0 ≤ (wrapPos p).y ∧ (wrapPos p).y < HEIGHT) ∧
    wrapPos (wrapPos p) = wrapPos p := by
  have hw : (0 : ℝ) < WIDTH := by norm_num [WIDTH]
  have hh : (0 : ℝ) < HEIGHT := by norm_num [HEIGHT]
  have hx0 : 0 ≤ (wrapPos p).x := remEuclid_nonneg _ _ hw
  have hx1 : (wrapPos p).x < WIDTH := remEuclid_lt _ _ hw
  have hy0 : 0 ≤ (wrapPos p).y := remEuclid_nonneg _ _ hh
  have hy1 : (wrapPos p).y < HEIGHT := remEuclid_lt _ _ hh
  exact ⟨⟨hx0, hx1, hy0, hy1⟩, wrapPos_eq_self _ hx0 hx1 hy0 hy1⟩

/-- Claim C10: `Obj::resolve` never modifies either body's rotation or
angular velocity, and when the squared distance between the centers is
at least `32 * 32` both bodies are returned entirely unchanged. -/
theorem C10_resolve_frame (a b : Obj) :
    ((Obj.resolve a b).1.rot = a.rot ∧ (Obj.resolve a b).1.rot_v = a.rot_v ∧
     (Obj.resolve a b).2.rot = b.rot ∧ (Obj.resolve a b).2.rot_v = b.rot_v) ∧
    (32 * 32 ≤ (a.pos - b.pos).lengthSq → Obj.resolve a b = (a, b)) := by
  constructor
  · simp only [Obj.resolve]
    split <;> simp
  · intro h
    exact resolve_far a b (not_lt.2 h)

/-- Witness for C10 at a concrete far-apart pair. -/
theorem C10_resolve_frame_witness :
    32 * 32 ≤ ((Obj.with' 0 0 0 0 0 0).pos - (Obj.with' 100 0 0 0 0 0).pos).lengthSq ∧
    Obj.resolve (Obj.with' 0 0 0 0 0 0) (Obj.with' 100 0 0 0 0 0) =
      (Obj.with' 0 0 0 0 0 0, Obj.with' 100 0 0 0 0 0) :=
  ⟨by norm_num [Obj.with', Vec2.lengthSq],
   (C10_resolve_frame (Obj.with' 0 0 0 0 0 0) (Obj.with' 100 0 0 0 0 0)).2
     (by norm_num [Obj.with', Vec2.lengthSq])⟩

/-- Claim C4: for two bodies at positive distance below the collision
radius, `Obj::resolve` conserves the vector sum of the two velocities,
and after the positional correction the distance between the centers is
at least the collision radius (it is exactly 32). -/
theorem C4_resolve_momentum_separation (a b : Obj)
    (h0 : 0 < (a.pos - b.pos).lengthSq) (h1 : (a.pos - b.pos).lengthSq < 32 * 32) :
    (Obj.resolve a b).1.vel + (Obj.resolve a b).2.vel = a.vel + b.vel ∧
    32 ≤ ((Obj.resolve a b).1.pos - (Obj.resolve a b).2.pos).len := by
  have hd : 0 < Real.sqrt ((a.pos - b.pos).lengthSq) := Real.sqrt_pos.2 h0
  constructor
  · simp only [Obj.resolve]
    rw [if_pos h1]
    ext <;> simp
  · have key : (Obj.resolve a b).1.pos - (Obj.resolve a b).2.pos =
        (32 / Real.sqrt ((a.pos - b.pos).lengthSq)) • (a.pos - b.pos) := by
      simp only [Obj.resolve]
      rw [if_pos h1]
      ext <;> simp <;> ring
    rw [key, Vec2.len_smul]
    have hlen : (a.pos - b.pos).len = Real.sqrt ((a.pos - b.pos).lengthSq) := rfl
    rw [hlen, abs_of_pos (by positivity), div_mul_cancel₀ _ (ne_of_gt hd)]

/-- Witness for C4 at the concrete pair `(0,0)`/`(7,24)` (distance 25). -/
theorem C4_resolve_momentum_separation_witness :
    0 < ((Obj.with' 0 0 1 2 0 0).pos - (Obj.with' 7 24 0 0 0 0).pos).lengthSq ∧
    ((Obj.with' 0 0 1 2 0 0).pos - (Obj.with' 7 24 0 0 0 0).pos).lengthSq < 32 * 32 ∧
    ((Obj.resolve (Obj.with' 0 0 1 2 0 0) (Obj.with' 7 24 0 0 0 0)).1.vel +
       (Obj.resolve (Obj.with' 0 0 1 2 0 0) (Obj.with' 7 24 0 0 0 0)).2.vel =
       (Obj.with' 0 0 1 2 0 0).vel + (Obj.with' 7 24 0 0 0 0).vel ∧
     32 ≤ ((Obj.resolve (Obj.with' 0 0 1 2 0 0) (Obj.with' 7 24 0 0 0 0)).1.pos -
       (Obj.resolve (Obj.with' 0 0 1 2 0 0) (Obj.with' 7 24 0 0 0 0)).2.pos).len) :=
  ⟨by norm_num [Obj.with', Vec2.lengthSq],
   by norm_num [Obj.with', Vec2.lengthSq],
   C4_resolve_momentum_separation (Obj.with' 0 0 1 2 0 0) (Obj.with' 7 24 0 0 0 0)
     (by norm_num [Obj.with', Vec2.lengthSq])
     (by norm_num [Obj.with', Vec2.lengthSq])⟩

/-! ## The brake (claim C7) -/

theorem Vec2.lengthSq_pos (v : Vec2) (h : v ≠ 0) : 0 < v.lengthSq := by
  simp only [Ne, Vec2.ext_iff, not_and_or] at h
  rcases h with h | h
  · have : 0 < v.x * v.x := mul_self_pos.2 (by simpa using h)
    have : 0 ≤ v.y * v.y := mul_self_nonneg _
    simp only [Vec2.lengthSq]
    linarith
  · have : 0 < v.y * v.y := mul_self_pos.2 (by simpa using h)
    have : 0 ≤ v.x * v.x := mul_self_nonneg _
    simp only [Vec2.lengthSq]
    linarith

theorem Vec2.len_pos (v : Vec2) (h : v ≠ 0) : 0 < v.len :=
  Real.sqrt_pos.2 (Vec2.lengthSq_pos v h)

theorem toCancel_of_nonneg (v d : Vec2) (h0 : 0 ≤ v.dot d) :
    toCancel v d = v - (v.dot d) • d := by
  rw [toCancel, max_eq_left h0]

theorem toCancel_dot_self (v d : Vec2) (hunit : d.x * d.x + d.y * d.y = 1)
    (h0 : 0 ≤ v.dot d) : (toCancel v d).dot d = 0 := by
  rw [toCancel_of_nonneg v d h0]
  simp only [Vec2.dot, Vec2.sub_x, Vec2.sub_y, Vec2.smul_x, Vec2.smul_y]
  linear_combination (-(v.x * d.x + v.y * d.y)) * hunit

theorem brakeVel_eq (v d : Vec2) (hne : toCancel v d ≠ 0) :
    brakeVel v d = v - (ACCELERATION * DELTA / (toCancel v d).len) • toCancel v d := by
  rw [brakeVel, Vec2.normalizeOrZero, if_neg hne]
  ext <;> simp [div_eq_mul_inv] <;> ring

/-- The brake recomputed: with a unit facing direction and a forward (or
orthogonal) velocity component, one brake application scales the
to-cancel component by `1 - deceleration·dt / ‖to-cancel‖` — with no
clamp, so the factor is negative (the component reverses) whenever the
magnitude was below `deceleration·dt`. -/
theorem brake_scaling_aux (v d : Vec2) (hunit : d.x * d.x + d.y * d.y = 1)
    (h0 : 0 ≤ v.dot d) (hne : toCancel v d ≠ 0) :
    toCancel (brakeVel v d) d =
      (1 - ACCELERATION * DELTA / (toCancel v d).len) • toCancel v d := by
  have htd : (toCancel v d).dot d = 0 := toCancel_dot_self v d hunit h0
  have hb := brakeVel_eq v d hne
  have hdot2 : (brakeVel v d).dot d = v.dot d := by
    rw [hb]
    have expand : (v - (ACCELERATION * DELTA / (toCancel v d).len) • toCancel v d).dot d =
        v.dot d - (ACCELERATION * DELTA / (toCancel v d).len) * ((toCancel v d).dot d) := by
      simp only [Vec2.dot, Vec2.sub_x, Vec2.sub_y, Vec2.smul_x, Vec2.smul_y]
      ring
    rw [expand, htd, mul_zero, sub_zero]
  have h0' : 0 ≤ (brakeVel v d).dot d := hdot2 ▸ h0
  rw [toCancel_of_nonneg _ _ h0', hdot2, hb, toCancel_of_nonneg v d h0]
  ext <;> simp <;> ring

/-- Claim C7 (counterexample): with facing `(1,0)` and velocity `(0,1)`
the to-cancel component is `(0,1)` of magnitude `1 < deceleration·dt =
2.5`; the brake subtracts the full `2.5`-long vector anyway, leaving a
to-cancel component `(0,-1.5)` that points OPPOSITE the original one
(negative dot product) — the component was pushed past zero and
reversed. -/
theorem C7_brake_overshoot_cx :
    Vec2.dot (toCancel (brakeVel ⟨0, 1⟩ (angleToVec 0)) (angleToVec 0))
      (toCancel ⟨0, 1⟩ (angleToVec 0)) < 0 := by
  have e0 : angleToVec 0 = (⟨1, 0⟩ : Vec2) := by simp [angleToVec]
  have e1 : toCancel ⟨0, 1⟩ (⟨1, 0⟩ : Vec2) = ⟨0, 1⟩ := by
    ext <;> simp [toCancel, Vec2.dot]
  have hne : (⟨0, 1⟩ : Vec2) ≠ 0 := by simp [Vec2.ext_iff]
  have e2 : (⟨0, 1⟩ : Vec2).len = 1 := by
    simp [Vec2.len, Vec2.lengthSq]
  have e3 : brakeVel ⟨0, 1⟩ (⟨1, 0⟩ : Vec2) = ⟨0, -(3 / 2)⟩ := by
    rw [brakeVel, e1, Vec2.normalizeOrZero, if_neg hne, e2]
    ext <;> norm_num [ACCELERATION, DELTA]
  have e4 : toCancel ⟨0, -(3 / 2)⟩ (⟨1, 0⟩ : Vec2) = ⟨0, -(3 / 2)⟩ := by
    ext <;> simp [toCancel, Vec2.dot]
  rw [e0, e1, e3, e4]
  norm_num [Vec2.dot]

/-- Claim C7 as amended: for a velocity with no backward component
along the facing (`0 ≤ vel·dir`) and a nonzero to-cancel component, the
brake has no clamp — it scales the to-cancel component by
`1 - deceleration·dt / ‖to-cancel‖`, so the magnitude becomes
`|‖to-cancel‖ - deceleration·dt|`: reduced by exactly `deceleration·dt`
when at least that large, but overshooting past zero and reversing
direction when smaller.  (With a backward component the overshoot can
instead land in the forward half-plane, where the `max(·,0)` clamp
absorbs it; no scaling law is asserted there.) -/
theorem C7_brake_unclamped (vel : Vec2) (rot : ℝ)
    (h0 : 0 ≤ vel.dot (angleToVec rot)) (hne : toCancel vel (angleToVec rot) ≠ 0) :
    toCancel (brakeVel vel (angleToVec rot)) (angleToVec rot) =
      (1 - ACCELERATION * DELTA / (toCancel vel (angleToVec rot)).len) •
        toCancel vel (angleToVec rot) ∧
    (toCancel (brakeVel vel (angleToVec rot)) (angleToVec rot)).len =
      |(toCancel vel (angleToVec rot)).len - ACCELERATION * DELTA| := by
  have hunit : (angleToVec rot).x * (angleToVec rot).x +
      (angleToVec rot).y * (angleToVec rot).y = 1 := by
    simp only [angleToVec]
    nlinarith [Real.sin_sq_add_cos_sq rot]
  have hmain := brake_scaling_aux vel (angleToVec rot) hunit h0 hne
  refine ⟨hmain, ?_⟩
  rw [hmain, Vec2.len_smul]
  have hL : 0 < (toCancel vel (angleToVec rot)).len := Vec2.len_pos _ hne
  have hrw : 1 - ACCELERATION * DELTA / (toCancel vel (angleToVec rot)).len =
      ((toCancel vel (angleToVec rot)).len - ACCELERATION * DELTA) /
        (toCancel vel (angleToVec rot)).len := by
    field_simp
  rw [hrw, abs_div, abs_of_pos hL, div_mul_cancel₀ _ (ne_of_gt hL)]

/-- Witness for C7 at facing angle 0 and velocity `(0,1)`. -/
theorem C7_brake_unclamped_witness :
    0 ≤ Vec2.dot ⟨0, 1⟩ (angleToVec 0) ∧ toCancel ⟨0, 1⟩ (angleToVec 0) ≠ 0 ∧
    (toCancel (brakeVel ⟨0, 1⟩ (angleToVec 0)) (angleToVec 0) =
      (1 - ACCELERATION * DELTA / (toCancel ⟨0, 1⟩ (angleToVec 0)).len) •
        toCancel ⟨0, 1⟩ (angleToVec 0) ∧
     (toCancel (brakeVel ⟨0, 1⟩ (angleToVec 0)) (angleToVec 0)).len =
      |(toCancel ⟨0, 1⟩ (angleToVec 0)).len - ACCELERATION * DELTA|) := by
  have h0' : 0 ≤ Vec2.dot ⟨0, 1⟩ (angleToVec 0) := by norm_num [Vec2.dot, angleToVec]
  have e1 : toCancel ⟨0, 1⟩ (angleToVec 0) = ⟨0, 1⟩ := by
    ext <;> simp [toCancel, Vec2.dot, angleToVec]
  have hne' : toCancel ⟨0, 1⟩ (angleToVec 0) ≠ 0 := by
    rw [e1]
    simp [Vec2.ext_iff]
  exact ⟨h0', hne', C7_brake_unclamped ⟨0, 1⟩ 0 h0' hne'⟩

/-! ## The bullet-versus-crate pass (claims C5, C6) -/

theorem findHit_split (p : Vec2) (pre post : List Obj) (c : Obj)
    (hpre : ∀ x ∈ pre,
      ¬ (p - x.pos).lengthSq < CRATE_BULLET_COLLIDE_DIST * CRATE_BULLET_COLLIDE_DIST)
    (hc : (p - c.pos).lengthSq < CRATE_BULLET_COLLIDE_DIST * CRATE_BULLET_COLLIDE_DIST) :
    findHit p (pre ++ c :: post) = some (pre, c, post) := by
  induction pre with
  | nil =>
    simp only [List.nil_append, findHit]
    rw [if_pos hc]
  | cons a pre' ih =>
    simp only [List.cons_append, findHit, List.append_eq]
    rw [if_neg (hpre a (by simp)), ih fun x hx => hpre x (by simp [hx])]
    rfl

theorem findHit_nil (p : Vec2) : findHit p [] = none := rfl

theorem bulletPassAux_nil (fr fv ft : ℕ → ℝ) (crates : List Obj) (spl : List Bullet)
    (n : ℕ) : bulletPassAux fr fv ft [] crates spl n = (crates, spl, []) := rfl

theorem bulletPassAux_cons_hit {fr fv ft : ℕ → ℝ} {b : Bullet} {bs : List Bullet}
    {crates pre post : List Obj} {c : Obj} {spl : List Bullet} {n : ℕ}
    (h : findHit b.obj.pos crates = some (pre, c, post)) :
    bulletPassAux fr fv ft (b :: bs) crates spl n =
      bulletPassAux fr fv ft bs (pre ++ post)
        (spl ++ fourSplinters fr fv ft n { c with vel := c.vel + (0.4 : ℝ) • b.obj.vel })
        (n + 4) := by
  simp only [bulletPassAux, h]

theorem bulletPassAux_cons_miss {fr fv ft : ℕ → ℝ} {b : Bullet} {bs : List Bullet}
    {crates : List Obj} {spl : List Bullet} {n : ℕ}
    (h : findHit b.obj.pos crates = none) :
    bulletPassAux fr fv ft (b :: bs) crates spl n =
      ((bulletPassAux fr fv ft bs crates spl n).1,
       (bulletPassAux fr fv ft bs crates spl n).2.1,
       b :: (bulletPassAux fr fv ft bs crates spl n).2.2) := by
  simp only [bulletPassAux, h]

/-- Claim C6: a bullet whose first in-range crate is `crat0` removes
exactly that crate and itself and pushes exactly the four splinters,
each derived from the crate's body after its velocity gained 40% of the
bullet's velocity, displaced by 8 along `+x`/`-x`/`+y`/`-y` with a
delta-velocity of 50 along the same axis; the collection sizes change by
`-1` crate, `-1` bullet, `+4` splinters (net `+2`). -/
theorem C6_destruction_fanout (fr fv ft : ℕ → ℝ) (b : Bullet) (pre post : List Obj)
    (crat0 : Obj) (sp : List Bullet)
    (hpre : ∀ x ∈ pre,
      ¬ (b.obj.pos - x.pos).lengthSq < CRATE_BULLET_COLLIDE_DIST * CRATE_BULLET_COLLIDE_DIST)
    (hhit : (b.obj.pos - crat0.pos).lengthSq <
      CRATE_BULLET_COLLIDE_DIST * CRATE_BULLET_COLLIDE_DIST) :
    bulletPassAux fr fv ft [b] (pre ++ crat0 :: post) sp 0 =
      (pre ++ post,
       sp ++ fourSplinters fr fv ft 0 { crat0 with vel := crat0.vel + (0.4 : ℝ) • b.obj.vel },
       []) ∧
    (pre ++ post).length + 1 = (pre ++ crat0 :: post).length ∧
    (sp ++ fourSplinters fr fv ft 0
      { crat0 with vel := crat0.vel + (0.4 : ℝ) • b.obj.vel }).length = sp.length + 4 := by
  refine ⟨?_, by simp only [List.length_append, List.length_cons]; omega,
    by simp [fourSplinters]⟩
  rw [bulletPassAux_cons_hit (findHit_split b.obj.pos pre post crat0 hpre hhit),
    bulletPassAux_nil]

/-- Witness for C6: one bullet, one crate 10 apart, empty splinter list. -/
theorem C6_destruction_fanout_witness :
    bulletPassAux (fun _ => 0) (fun _ => 0) (fun _ => 0)
        [(Obj.with' 0 0 3 0 0 0).bullet 1] [Obj.with' 10 0 0 0 0 0] [] 0 =
      ([],
       fourSplinters (fun _ => 0) (fun _ => 0) (fun _ => 0) 0
         { Obj.with' 10 0 0 0 0 0 with
           vel := (Obj.with' 10 0 0 0 0 0).vel + (0.4 : ℝ) • (Obj.with' 0 0 3 0 0 0).vel },
       []) := by
  have h := (C6_destruction_fanout (fun _ => 0) (fun _ => 0) (fun _ => 0)
    ((Obj.with' 0 0 3 0 0 0).bullet 1) [] [] (Obj.with' 10 0 0 0 0 0) []
    (by simp)
    (by norm_num [Obj.with', Obj.bullet, Vec2.lengthSq, CRATE_BULLET_COLLIDE_DIST])).1
  simpa using h

/-- Claim C5 (counterexample): two bullets both in range of the one
crate.  In the code the first bullet removes the crate during the scan,
so the second bullet finds nothing and survives; under the claimed
stable-snapshot semantics both bullets would be marked and removed. -/
theorem C5_snapshot_cx :
    (bulletPassAux (fun _ => 0) (fun _ => 0) (fun _ => 0)
        [(Obj.with' 0 0 0 0 0 0).bullet 1, (Obj.with' 0 0 0 0 0 0).bullet 1]
        [Obj.with' 10 0 0 0 0 0] [] 0).2.2 ≠
      snapshotSurvivors [Obj.with' 10 0 0 0 0 0]
        [(Obj.with' 0 0 0 0 0 0).bullet 1, (Obj.with' 0 0 0 0 0 0).bullet 1] := by
  have hfind : findHit ((Obj.with' 0 0 0 0 0 0).bullet 1).obj.pos
      [Obj.with' 10 0 0 0 0 0] = some ([], Obj.with' 10 0 0 0 0 0, []) := by
    have := findHit_split ((Obj.with' 0 0 0 0 0 0).bullet 1).obj.pos [] []
      (Obj.with' 10 0 0 0 0 0) (by simp)
      (by norm_num [Obj.with', Obj.bullet, Vec2.lengthSq, CRATE_BULLET_COLLIDE_DIST])
    simpa using this
  have hsnap : snapshotSurvivors [Obj.with' 10 0 0 0 0 0]
      [(Obj.with' 0 0 0 0 0 0).bullet 1, (Obj.with' 0 0 0 0 0 0).bullet 1] = [] := by
    simp [snapshotSurvivors, hfind]
  rw [bulletPassAux_cons_hit hfind, hsnap]
  rw [show (([] : List Obj) ++ []) = ([] : List Obj) from rfl]
  rw [bulletPassAux_cons_miss (findHit_nil _), bulletPassAux_nil]
  simp

/-- Claim C5 as amended: dead bullets are dropped only after the scan of
the original bullet list, but a destroyed crate is removed from the
crate collection immediately during the scan — so of two bullets both in
range of the same sole crate, the first destroys it (producing the four
splinters) and the second scans an empty collection and survives. -/
theorem C5_crate_removed_during_scan (fr fv ft : ℕ → ℝ) (b₁ b₂ : Bullet) (c : Obj)
    (sp : List Bullet)
    (h₁ : (b₁.obj.pos - c.pos).lengthSq <
      CRATE_BULLET_COLLIDE_DIST * CRATE_BULLET_COLLIDE_DIST)
    (h₂ : (b₂.obj.pos - c.pos).lengthSq <
      CRATE_BULLET_COLLIDE_DIST * CRATE_BULLET_COLLIDE_DIST) :
    bulletPassAux fr fv ft [b₁, b₂] [c] sp 0 =
      ([], sp ++ fourSplinters fr fv ft 0 { c with vel := c.vel + (0.4 : ℝ) • b₁.obj.vel },
       [b₂]) := by
  have hfind₁ : findHit b₁.obj.pos [c] = some ([], c, []) := by
    have := findHit_split b₁.obj.pos [] [] c (by simp) h₁
    simpa using this
  rw [bulletPassAux_cons_hit hfind₁]
  rw [show (([] : List Obj) ++ []) = ([] : List Obj) from rfl]
  rw [bulletPassAux_cons_miss (findHit_nil _), bulletPassAux_nil]

/-- Witness for C5's amended statement at a concrete configuration. -/
theorem C5_crate_removed_during_scan_witness :
    bulletPassAux (fun _ => 0) (fun _ => 0) (fun _ => 0)
        [(Obj.with' 0 0 0 0 0 0).bullet 1, (Obj.with' 0 0 0 0 0 0).bullet 1]
        [Obj.with' 10 0 0 0 0 0] [] 0 =
      ([],
       fourSplinters (fun _ => 0) (fun _ => 0) (fun _ => 0) 0
         { Obj.with' 10 0 0 0 0 0 with
           vel := (Obj.with' 10 0 0 0 0 0).vel + (0.4 : ℝ) • (Obj.with' 0 0 0 0 0 0).vel },
       [(Obj.with' 0 0 0 0 0 0).bullet 1]) := by
  have h := C5_crate_removed_during_scan (fun _ => 0) (fun _ => 0) (fun _ => 0)
    ((Obj.with' 0 0 0 0 0 0).bullet 1) ((Obj.with' 0 0 0 0 0 0).bullet 1)
    (Obj.with' 10 0 0 0 0 0) []
    (by norm_num [Obj.with', Obj.bullet, Vec2.lengthSq, CRATE_BULLET_COLLIDE_DIST])
    (by norm_num [Obj.with', Obj.bullet, Vec2.lengthSq, CRATE_BULLET_COLLIDE_DIST])
  simpa using h

/-! ## Phase evaluation lemmas for the update step -/

theorem gate_not_tick (s : State) (i : Input) (h : i.tick = false) : gatePhase s i = s := by
  simp [gatePhase, h]

theorem spawn_notdue (s : State) (i : Input) (h : ¬ s.crate_spawn_time ≤ 0) :
    spawnPhase s i = s := by
  rw [spawnPhase, if_neg h]

theorem spawn_due (s : State) (i : Input) (h1 : s.crate_spawn_time ≤ 0)
    (h2 : (s.ship.pos - ⟨i.spawnX, i.spawnY⟩).lengthSq ≥ 160 * 160) :
    spawnPhase s i =
      { s with crate_spawn_time := s.crate_spawn_time + CRATE_SPAWN_RATE,
               crates := s.crates ++
                 [Obj.with' i.spawnX i.spawnY i.svx i.svy i.srot i.srotv] } := by
  rw [spawnPhase, if_pos h1, if_pos h2]

theorem spawn_reject (s : State) (i : Input)
    (h2 : (s.ship.pos - ⟨i.spawnX, i.spawnY⟩).lengthSq < 160 * 160) :
    spawnPhase s i = s := by
  rw [spawnPhase]
  split
  · rw [if_neg (not_le.2 h2)]
  · rfl

theorem shipControl_quiet (i : Input) (ship : Obj) (ha : i.keyA = false)
    (hd : i.keyD = false) (hw : i.keyW = false) (hs : i.keyS = false)
    (he : i.keyE = false) (hq : i.keyQ = false) (hshift : i.keyShift = false) :
    shipControl i ship = ship := by
  simp [shipControl, ha, hd, hw, hs, he, hq, hshift]

theorem pruneTick_nil : pruneTick [] = [] := rfl

theorem gate_quiet (s : State) (i : Input) (ht : i.tick = true)
    (hsp : i.keySpace = false) (hkb : i.keyB = false) (ha : i.keyA = false)
    (hd : i.keyD = false) (hw : i.keyW = false) (hs : i.keyS = false)
    (he : i.keyE = false) (hq : i.keyQ = false) (hshift : i.keyShift = false) :
    gatePhase s i =
      { s with
        crate_spawn_time :=
          (if s.crates.length < CRATE_LIMIT then s.crate_spawn_time - DELTA
           else s.crate_spawn_time) - (if i.keyC then CRATE_SPAWN_RATE else 0),
        bullets := pruneTick s.bullets,
        splinters := pruneTick s.splinters } := by
  have hctl := shipControl_quiet i s.ship ha hd hw hs he hq hshift
  cases hC : i.keyC <;>
    simp [gatePhase, ht, hsp, hkb, hC, hctl]

theorem moveObj_wrap_eval (o : Obj) :
    moveObj false o =
      { o with pos := wrapPos (o.pos + DELTA • o.vel), rot := o.rot + o.rot_v * DELTA } := by
  simp [moveObj]

theorem moveObj_static (o : Obj) (hv : o.vel = 0) (hrv : o.rot_v = 0)
    (hx0 : 0 ≤ o.pos.x) (hx1 : o.pos.x < WIDTH) (hy0 : 0 ≤ o.pos.y)
    (hy1 : o.pos.y < HEIGHT) : moveObj false o = o := by
  have h1 : o.pos + DELTA • o.vel = o.pos := by
    rw [hv]
    ext <;> simp
  have h2 : o.rot + o.rot_v * DELTA = o.rot := by
    rw [hrv]
    ring
  rw [moveObj_wrap_eval, h1, h2, wrapPos_eq_self o.pos hx0 hx1 hy0 hy1]

theorem movePhase_simple (s : State) (hb : s.bullets = []) (hsp : s.splinters = [])
    (hbd : s.bounce_edge = false) :
    movePhase s = { s with ship := moveObj false s.ship,
                           crates := s.crates.map (moveObj false) } := by
  simp [movePhase, hb, hsp, hbd]

theorem bulletPhase_no_bullets (i : Input) (s : State) (hb : s.bullets = []) :
    bulletPhase i s = s := by
  apply State.ext <;> simp [bulletPhase, hb, bulletPassAux_nil]

theorem collidePhase_far (s : State)
    (hpair : s.crates.Pairwise fun a b => 32 * 32 ≤ (a.pos - b.pos).lengthSq)
    (hship : ∀ c ∈ s.crates, 32 * 32 ≤ (s.ship.pos - c.pos).lengthSq) :
    collidePhase s = s := by
  have h1 : resolvePairs s.crates = s.crates := resolvePairs_far _ hpair
  have h2 : resolveWithAll s.ship s.crates = (s.ship, s.crates) :=
    resolveWithAll_far _ _ hship
  apply State.ext <;> simp [collidePhase, h1, h2]

theorem collidePhase_nil (s : State) (hc : s.crates = []) : collidePhase s = s := by
  apply collidePhase_far <;> simp [hc]

/-! ## Claim C3: what is and is not inside the fixed-timestep gate -/

/-- Claim C3 (counterexample): an update invocation on which the fixed
tick has NOT elapsed still changes the simulation state — the whole
integration/boundary/collision part runs outside the gate, so a moving
ship advances by one `DELTA` even on a gateless invocation. -/
theorem C3_ungated_work_cx :
    baseInput.tick = false ∧ step idleMoveState baseInput ≠ idleMoveState := by
  refine ⟨rfl, fun h => ?_⟩
  have e3 : moveObj false (Obj.with' 0 0 60 0 0 0) = Obj.with' 1 0 60 0 0 0 := by
    rw [moveObj_wrap_eval]
    have hp : (Obj.with' 0 0 60 0 0 0).pos + DELTA • (Obj.with' 0 0 60 0 0 0).vel =
        (⟨1, 0⟩ : Vec2) := by
      ext <;> norm_num [Obj.with', DELTA]
    rw [hp, wrapPos_eq_self _ (by norm_num) (by norm_num [WIDTH]) (by norm_num)
      (by norm_num [HEIGHT])]
    apply Obj.ext <;> norm_num [Obj.with']
  have hstep : step idleMoveState baseInput =
      { idleMoveState with ship := Obj.with' 1 0 60 0 0 0 } := by
    rw [step, spawn_notdue _ _ (by norm_num [idleMoveState]), gate_not_tick _ _ rfl,
      movePhase_simple _ rfl rfl rfl]
    rw [show idleMoveState.ship = Obj.with' 0 0 60 0 0 0 from rfl, e3]
    rw [bulletPhase_no_bullets _ _ rfl, collidePhase_nil _ rfl]
    simp [idleMoveState]
  rw [h] at hstep
  have := congrArg (fun st : State => st.ship.pos.x) hstep
  norm_num [idleMoveState, Obj.with'] at this

/-- Claim C3 as amended: when the fixed tick has not elapsed, only the
gated section (countdown decay, ttl pruning, input handling) is skipped;
spawning, integration, boundary handling, the bullet pass and collision
resolution still execute on that invocation. -/
theorem C3_gate_scope (s : State) (i : Input) (h : i.tick = false) :
    step s i = collidePhase (bulletPhase i (movePhase (spawnPhase s i))) := by
  rw [step, gate_not_tick _ _ h]

/-- Witness for C3's amended statement. -/
theorem C3_gate_scope_witness :
    baseInput.tick = false ∧
    step idleMoveState baseInput =
      collidePhase (bulletPhase baseInput (movePhase (spawnPhase idleMoveState baseInput))) :=
  ⟨rfl, C3_gate_scope idleMoveState baseInput rfl⟩

/-! ## Claim C8: the force-spawn input -/

theorem gate_keyC (s : State) (i : Input) (ht : i.tick = true) (hc : i.keyC = false) :
    gatePhase s { i with keyC := true } =
      { gatePhase s i with
        crate_spawn_time := (gatePhase s i).crate_spawn_time - CRATE_SPAWN_RATE } := by
  have h1 : ({ i with keyC := true } : Input).tick = true := ht
  simp only [gatePhase]
  rw [if_pos h1, if_pos ht]
  simp only [if_true]
  rw [if_neg (show ¬ i.keyC = true by simp [hc])]
  rfl

/-- Claim C8 as amended: within a ticking update, holding `C` subtracts
exactly one spawn interval from the countdown and changes nothing else
(relative to the same update without `C`); and the spawn evaluation
never bypasses the minimum-distance check — a candidate within 160 of
the ship is rejected outright (no crate spawned, countdown untouched, so
the forced backlog persists to later evaluations). -/
theorem C8_force_spawn_no_bypass (s : State) (i : Input) (ht : i.tick = true)
    (hc : i.keyC = false)
    (hnear : (s.ship.pos - ⟨i.spawnX, i.spawnY⟩).lengthSq < 160 * 160) :
    step s { i with keyC := true } =
      { step s i with crate_spawn_time := (step s i).crate_spawn_time - CRATE_SPAWN_RATE } ∧
    spawnPhase s i = s := by
  refine ⟨?_, spawn_reject s i hnear⟩
  have hg := gate_keyC (spawnPhase s i) i ht hc
  calc step s { i with keyC := true }
      = collidePhase (bulletPhase i (movePhase
          (gatePhase (spawnPhase s i) { i with keyC := true }))) := rfl
    _ = collidePhase (bulletPhase i (movePhase
          { gatePhase (spawnPhase s i) i with
            crate_spawn_time :=
              (gatePhase (spawnPhase s i) i).crate_spawn_time - CRATE_SPAWN_RATE })) := by
        rw [hg]
    _ = { step s i with
          crate_spawn_time := (step s i).crate_spawn_time - CRATE_SPAWN_RATE } := rfl

/-- Witness for C8's amended statement: the ticking update on the empty
arena with the candidate position falling on the ship. -/
theorem C8_force_spawn_no_bypass_witness :
    nearInput.tick = true ∧ nearInput.keyC = false ∧
    ((nearSpawnState.ship.pos - ⟨nearInput.spawnX, nearInput.spawnY⟩).lengthSq < 160 * 160) ∧
    (step nearSpawnState { nearInput with keyC := true } =
      { step nearSpawnState nearInput with
        crate_spawn_time :=
          (step nearSpawnState nearInput).crate_spawn_time - CRATE_SPAWN_RATE } ∧
     spawnPhase nearSpawnState nearInput = nearSpawnState) := by
  have hnear : ((nearSpawnState.ship.pos -
      ⟨nearInput.spawnX, nearInput.spawnY⟩).lengthSq < 160 * 160) := by
    norm_num [nearSpawnState, nearInput, baseInput, Obj.new, Vec2.lengthSq]
  exact ⟨rfl, rfl, hnear, C8_force_spawn_no_bypass nearSpawnState nearInput rfl rfl hnear⟩

/-- Claim C8 (counterexample): a `C` press leaves the countdown at or
below zero, yet the next natural spawn evaluation — triggered by that
subtraction — still applies the distance check: with the random
candidate on top of the ship, no crate is spawned. -/
theorem C8_distance_check_still_applies_cx :
    (step nearSpawnState forceInput).crate_spawn_time ≤ 0 ∧
    (step (step nearSpawnState forceInput) nearInput).crates.length = 0 := by
  have h1 : step nearSpawnState forceInput =
      { nearSpawnState with crate_spawn_time := 3 / 10 - DELTA - CRATE_SPAWN_RATE } := by
    rw [step, spawn_notdue _ _ (by norm_num [nearSpawnState]),
      gate_quiet _ _ rfl rfl rfl rfl rfl rfl rfl rfl rfl rfl]
    norm_num [nearSpawnState, forceInput, baseInput, CRATE_LIMIT, pruneTick_nil]
    rw [movePhase_simple _ rfl rfl rfl,
      moveObj_static _ rfl rfl (by norm_num [nearSpawnState, Obj.new])
        (by norm_num [nearSpawnState, Obj.new, WIDTH])
        (by norm_num [nearSpawnState, Obj.new])
        (by norm_num [nearSpawnState, Obj.new, HEIGHT]),
      bulletPhase_no_bullets _ _ rfl, collidePhase_nil _ rfl]
    simp [nearSpawnState]
  constructor
  · rw [h1]
    norm_num [DELTA, CRATE_SPAWN_RATE]
  · rw [h1]
    have h2 : spawnPhase
        { nearSpawnState with crate_spawn_time := 3 / 10 - DELTA - CRATE_SPAWN_RATE }
        nearInput = { nearSpawnState with
          crate_spawn_time := 3 / 10 - DELTA - CRATE_SPAWN_RATE } :=
      spawn_reject _ _ (by norm_num [nearSpawnState, nearInput, baseInput, Obj.new,
        Vec2.lengthSq])
    rw [step, h2, gate_quiet _ _ rfl rfl rfl rfl rfl rfl rfl rfl rfl rfl]
    norm_num [nearSpawnState, nearInput, baseInput, CRATE_LIMIT, pruneTick_nil]
    rw [movePhase_simple _ rfl rfl rfl,
      moveObj_static _ rfl rfl (by norm_num [nearSpawnState, Obj.new])
        (by norm_num [nearSpawnState, Obj.new, WIDTH])
        (by norm_num [nearSpawnState, Obj.new])
        (by norm_num [nearSpawnState, Obj.new, HEIGHT]),
      bulletPhase_no_bullets _ _ rfl, collidePhase_nil _ rfl]
    simp [nearSpawnState]

/-! ## Claim C2: the crate cap can be exceeded -/

theorem gridList_length (k : ℕ) : (gridList k).length = k := by
  simp [gridList]

theorem gridList_succ (k : ℕ) : gridList (k + 1) = gridList k ++ [gridN k] := by
  simp [gridList, List.range_succ]

theorem cast_sub_sq_ge_one (a c : ℕ) (h : a ≠ c) : (1 : ℝ) ≤ ((a : ℝ) - c) ^ 2 := by
  rcases lt_or_gt_of_ne h with hl | hl
  · have h1 : (a : ℝ) + 1 ≤ c := by exact_mod_cast Nat.succ_le_of_lt hl
    nlinarith
  · have h1 : (c : ℝ) + 1 ≤ a := by exact_mod_cast Nat.succ_le_of_lt hl
    nlinarith

theorem gridN_far (i j : ℕ) (h : i ≠ j) :
    32 * 32 ≤ ((gridN i).pos - (gridN j).pos).lengthSq := by
  have hsplit : i % 30 ≠ j % 30 ∨ i / 30 ≠ j / 30 := by
    by_contra hcon
    push_neg at hcon
    exact h (by omega)
  simp only [gridN, Obj.with', Vec2.lengthSq, Vec2.sub_x, Vec2.sub_y]
  push_cast
  rcases hsplit with hx | hy
  · have h1 := cast_sub_sq_ge_one (i % 30) (j % 30) hx
    nlinarith [sq_nonneg ((40 : ℝ) * (i / 30 : ℕ) - 40 * (j / 30 : ℕ))]
  · have h1 := cast_sub_sq_ge_one (i / 30) (j / 30) hy
    nlinarith [sq_nonneg ((40 : ℝ) * (i % 30 : ℕ) - 40 * (j % 30 : ℕ))]

theorem gridN_ship_far (j : ℕ) (hj : j ≤ 200) :
    ((Obj.new 600 450).pos - (gridN j).pos).lengthSq ≥ 160 * 160 := by
  have hy : ((40 * (j / 30) : ℕ) : ℝ) ≤ 240 := by
    have : 40 * (j / 30) ≤ 240 := by omega
    exact_mod_cast this
  have hy0 : (0 : ℝ) ≤ ((40 * (j / 30) : ℕ) : ℝ) := Nat.cast_nonneg _
  simp only [gridN, Obj.new, Obj.with', Vec2.lengthSq, Vec2.sub_x, Vec2.sub_y]
  have h210 : (210 : ℝ) ≤ 450 - ((40 * (j / 30) : ℕ) : ℝ) := by linarith
  nlinarith [sq_nonneg ((600 : ℝ) - ((40 * (j % 30) : ℕ) : ℝ))]

theorem gridList_pairwise_far (k : ℕ) :
    (gridList k).Pairwise fun a b => 32 * 32 ≤ (a.pos - b.pos).lengthSq := by
  rw [gridList, List.pairwise_map]
  exact (List.pairwise_lt_range k).imp fun h => gridN_far _ _ (Nat.ne_of_lt h)

theorem gridN_pos_x (j : ℕ) : 0 ≤ (gridN j).pos.x ∧ (gridN j).pos.x < WIDTH := by
  refine ⟨Nat.cast_nonneg _, ?_⟩
  show ((40 * (j % 30) : ℕ) : ℝ) < WIDTH
  have : 40 * (j % 30) < 1200 := by omega
  rw [WIDTH]
  exact_mod_cast this

theorem gridN_pos_y (j : ℕ) (hj : j ≤ 200) :
    0 ≤ (gridN j).pos.y ∧ (gridN j).pos.y < HEIGHT := by
  refine ⟨Nat.cast_nonneg _, ?_⟩
  show ((40 * (j / 30) : ℕ) : ℝ) < HEIGHT
  have : 40 * (j / 30) < 900 := by omega
  rw [HEIGHT]
  exact_mod_cast this

theorem trace_move_crates (k : ℕ) (hk : k ≤ 201) :
    (gridList k).map (moveObj false) = gridList k := by
  rw [gridList, List.map_map]
  apply List.map_congr_left
  intro j hj
  have hj200 : j ≤ 200 := by
    have := List.mem_range.1 hj
    omega
  exact moveObj_static (gridN j) rfl rfl (gridN_pos_x j).1 (gridN_pos_x j).2
    (gridN_pos_y j hj200).1 (gridN_pos_y j hj200).2

theorem moveObj_ship_static : moveObj false (Obj.new 600 450) = Obj.new 600 450 :=
  moveObj_static _ rfl rfl (by norm_num [Obj.new]) (by norm_num [Obj.new, WIDTH])
    (by norm_num [Obj.new]) (by norm_num [Obj.new, HEIGHT])

theorem trace_cst (k : ℕ) :
    ((if k + 1 < 200 then -13 - ((min k 199 : ℕ) : ℝ) / 60 + CRATE_SPAWN_RATE - DELTA
      else -13 - ((min k 199 : ℕ) : ℝ) / 60 + CRATE_SPAWN_RATE) - CRATE_SPAWN_RATE) =
      -13 - ((min (k + 1) 199 : ℕ) : ℝ) / 60 := by
  by_cases h : k + 1 < 200
  · rw [if_pos h, min_eq_left (by omega : k ≤ 199), min_eq_left (by omega : k + 1 ≤ 199)]
    push_cast
    norm_num [CRATE_SPAWN_RATE, DELTA]
    ring
  · rw [if_neg h, min_eq_right (by omega : 199 ≤ k), min_eq_right (by omega : 199 ≤ k + 1)]
    ring

theorem trace_step (k : ℕ) (hk : k ≤ 200) :
    step (traceState k) (traceInput k) = traceState (k + 1) := by
  have hst : (traceState k).crate_spawn_time ≤ 0 := by
    have h0 : (0 : ℝ) ≤ ((min k 199 : ℕ) : ℝ) / 60 := by positivity
    show (-13 : ℝ) - ((min k 199 : ℕ) : ℝ) / 60 ≤ 0
    linarith
  have hdist : ((traceState k).ship.pos -
      ⟨(traceInput k).spawnX, (traceInput k).spawnY⟩).lengthSq ≥ 160 * 160 :=
    gridN_ship_far k hk
  have e1 : spawnPhase (traceState k) (traceInput k) =
      { traceState k with
        crate_spawn_time := (traceState k).crate_spawn_time + CRATE_SPAWN_RATE,
        crates := gridList (k + 1) } := by
    rw [spawn_due _ _ hst hdist]
    rw [show Obj.with' (traceInput k).spawnX (traceInput k).spawnY (traceInput k).svx
      (traceInput k).svy (traceInput k).srot (traceInput k).srotv = gridN k from rfl]
    rw [show (traceState k).crates = gridList k from rfl, ← gridList_succ]
  have e2 : gatePhase
      { traceState k with
        crate_spawn_time := (traceState k).crate_spawn_time + CRATE_SPAWN_RATE,
        crates := gridList (k + 1) } (traceInput k) =
      { traceState k with
        crates := gridList (k + 1),
        crate_spawn_time := -13 - ((min (k + 1) 199 : ℕ) : ℝ) / 60 } := by
    rw [gate_quiet _ _ rfl rfl rfl rfl rfl rfl rfl rfl rfl rfl]
    apply State.ext <;>
      simp only [traceState, gridList_length, pruneTick_nil, CRATE_LIMIT, if_true]
    exact trace_cst k
  have e3 : movePhase
      { traceState k with
        crates := gridList (k + 1),
        crate_spawn_time := -13 - ((min (k + 1) 199 : ℕ) : ℝ) / 60 } =
      { traceState k with
        crates := gridList (k + 1),
        crate_spawn_time := -13 - ((min (k + 1) 199 : ℕ) : ℝ) / 60 } := by
    rw [movePhase_simple _ rfl rfl rfl]
    apply State.ext <;> simp only []
    · exact moveObj_ship_static
    · exact trace_move_crates (k + 1) (by omega)
  have e5 : collidePhase
      { traceState k with
        crates := gridList (k + 1),
        crate_spawn_time := -13 - ((min (k + 1) 199 : ℕ) : ℝ) / 60 } =
      { traceState k with
        crates := gridList (k + 1),
        crate_spawn_time := -13 - ((min (k + 1) 199 : ℕ) : ℝ) / 60 } := by
    apply collidePhase_far
    · exact gridList_pairwise_far (k + 1)
    · intro c hc
      obtain ⟨j, hj, rfl⟩ := List.mem_map.1 hc
      have hj200 : j ≤ 200 := by
        have := List.mem_range.1 hj
        omega
      exact le_trans (by norm_num) (gridN_ship_far j hj200)
  rw [step, e1, e2, e3, bulletPhase_no_bullets _ _ rfl, e5]
  rfl

theorem runTrace_eq (k : ℕ) (hk : k ≤ 201) : runTrace k = traceState k := by
  induction k with
  | zero =>
    show initState = traceState 0
    simp only [initState, traceState, gridList, List.range_zero, List.map_nil]
    norm_num [State.mk.injEq, Obj.new, Obj.mk.injEq, Vec2.mk.injEq, CRATE_SPAWN_RATE,
      WIDTH, HEIGHT]
  | succ k ih =>
    rw [runTrace, ih (by omega), trace_step k (by omega)]

/-- Claim C2: evaluating the code on the trace that presses the
force-spawn key on every ticking update, with every random candidate
position landing on a far-apart grid, pushes the crate collection past
`CRATE_LIMIT`: after 201 updates from the initial (empty-crates) state
there are 201 crates. -/
theorem C2_spawn_cap_exceeded : CRATE_LIMIT < (runTrace 201).crates.length := by
  rw [runTrace_eq 201 (by norm_num)]
  show CRATE_LIMIT < (gridList 201).length
  rw [gridList_length]
  norm_num [CRATE_LIMIT]
